import Mathlib

/-!
Shallow embedding of the order-fulfillment and payment-settlement pipeline of
the strive-django storefront backend.

Sources embedded:
  - src/products/models.py   (Product: price, stock_count, is_active)
  - src/accounts/models.py   (Address: id, owning user)
  - src/orders/models.py     (Order, OrderItem, CartItem, OrderPayment)
  - src/orders/serializers.py (CreateOrderSerializer validation,
    AdminOrderUpdateSerializer.validate_status, CartItemSerializer)
  - src/orders/views.py      (CreateOrderFromCartView.post,
    RazorpayVerifyPaymentView.post, CancelOrderView.update,
    AdminOrderUpdateView.update, CartListCreateView.perform_create)

Modelling conventions: Django model rows become Lean structures collected in
lists inside a DB record; DecimalField money becomes Int, measured in
hundredths of the currency unit, which is exact because the pipeline only adds
prices and multiplies them by integer quantities; PositiveIntegerField
stock is embedded as Int so that non-negativity is a provable property rather
than a typing artifact.  A Django view returning an HTTP response becomes a
function DB -> result x DB.  Crucially, django.db.transaction.atomic commits
whenever the with-block is exited without an exception, so an early
`return Response(...)` from inside the block COMMITS whatever writes were
already made; only an exception rolls back.  The embedding therefore keeps the
partial writes on the insufficient-stock early return, and restores the
original DB only on branches where the Python code raises (modelled as
serverError).
-/

namespace Strive

/-- Embeds products.models.Product (src/products/models.py lines 6-24).
Django PositiveIntegerField stock_count is embedded as Int so that
non-negativity is provable, not assumed. -/
structure Product where
  id : Nat
  name : String
  price : Int
  stock_count : Int
  is_active : Bool
  deriving DecidableEq, Repr

/-- Embeds accounts.models.Address (src/accounts/models.py lines 32-51),
keeping only the fields the order pipeline reads: the row id and the owning
user. -/
structure Address where
  id : Nat
  user : Nat
  deriving DecidableEq, Repr

/-- Embeds orders.models.CartItem (src/orders/models.py lines 91-100). -/
structure CartItem where
  user : Nat
  product_id : Nat
  quantity : Nat
  deriving DecidableEq, Repr

/-- Embeds Order.STATUS_CHOICES (src/orders/models.py lines 7-13). -/
inductive OrderStatus
  | pending
  | confirmed
  | shipped
  | delivered
  | cancelled
  deriving DecidableEq, Repr

/-- Embeds orders.models.Order (src/orders/models.py lines 6-42), keeping the
fields the pipeline reads and writes. -/
structure Order where
  id : Nat
  user : Nat
  status : OrderStatus
  payment_method : String
  shipping_address_id : Nat
  total_amount : Int
  deriving DecidableEq, Repr

/-- Embeds orders.models.OrderItem (src/orders/models.py lines 73-88). -/
structure OrderItem where
  order_id : Nat
  product_id : Nat
  quantity : Nat
  price : Int
  deriving DecidableEq, Repr

/-- Embeds OrderItem.total_price (src/orders/models.py lines 86-88):
quantity times the captured price. -/
def OrderItem.total_price (it : OrderItem) : Int :=
  (it.quantity : Int) * it.price

/-- Embeds orders.models.OrderPayment (src/orders/models.py lines 45-71),
keeping the fields written by RazorpayVerifyPaymentView. -/
structure OrderPayment where
  order_id : Nat
  provider : String
  amount : Int
  currency : String
  status : String
  method : String
  razorpay_order_id : String
  razorpay_payment_id : String
  razorpay_signature : String
  deriving DecidableEq, Repr

/-- The database state threaded through every view.  The logs component is the
observable log/stdout trace of the process: the embedded views append to it
exactly where the Python code emits a log line (the verify view emits none). -/
structure DB where
  products : List Product
  addresses : List Address
  cartItems : List CartItem
  orders : List Order
  orderItems : List OrderItem
  payments : List OrderPayment
  logs : List String
  nextOrderId : Nat
  deriving DecidableEq, Repr

/-- Foreign-key resolution cart_item.product: first product row with the given
primary key. -/
def findProduct (ps : List Product) (pid : Nat) : Option Product :=
  ps.find? (fun p => p.id == pid)

/-- Embeds `cart_item.product.stock_count -= qty; cart_item.product.save()`
(src/orders/views.py lines 109-110): the row with the given id gets its stock
decremented. -/
def updateStock (ps : List Product) (pid : Nat) (qty : Nat) : List Product :=
  ps.map (fun p => if p.id == pid then { p with stock_count := p.stock_count - (qty : Int) } else p)

/-- Embeds `total_amount = sum(item.product.price * item.quantity for item in
cart_items)` (src/orders/views.py line 89).  Resolution of a dangling product
reference raises in Python, modelled as none. -/
def computeTotal (ps : List Product) : List CartItem → Option Int
  | [] => some 0
  | ci :: rest => do
    let p ← findProduct ps ci.product_id
    let t ← computeTotal ps rest
    pure (p.price * (ci.quantity : Int) + t)

/-- Outcome of the per-cart-line loop of the checkout views: the updated
product table together with the OrderItem rows created so far.  insufficient
carries the rows written before the failing line because the early `return`
commits them. -/
inductive LoopResult
  | ok (products : List Product) (newItems : List OrderItem)
  | insufficient (productName : String) (products : List Product) (newItems : List OrderItem)
  | productMissing
  deriving DecidableEq, Repr

/-- Embeds the `for cart_item in cart_items:` loop of
CreateOrderFromCartView.post (src/orders/views.py lines 98-110), shared
verbatim by RazorpayVerifyPaymentView.post (lines 193-205): check stock,
create the OrderItem with the current price, decrement stock. -/
def processItems (oid : Nat) (ps : List Product) : List CartItem → LoopResult
  | [] => .ok ps []
  | ci :: rest =>
    match findProduct ps ci.product_id with
    | none => .productMissing
    | some p =>
      if p.stock_count < (ci.quantity : Int) then
        .insufficient p.name ps []
      else
        match processItems oid (updateStock ps ci.product_id ci.quantity) rest with
        | .ok ps2 news => .ok ps2 (⟨oid, ci.product_id, ci.quantity, p.price⟩ :: news)
        | .insufficient nm ps2 news => .insufficient nm ps2 (⟨oid, ci.product_id, ci.quantity, p.price⟩ :: news)
        | .productMissing => .productMissing

/-- Client-facing error kinds produced by the embedded views. -/
inductive CheckoutError
  | invalidPaymentMethod
  | invalidAddress
  | emptyCart
  | insufficientStock (productName : String)
  | paymentVerificationFailed
  | missingFields
  deriving DecidableEq, Repr

/-- HTTP-level outcome of a checkout view: 201 with the created order id, a
4xx client error, or a 5xx from an uncaught exception (which rolls the
transaction back). -/
inductive CheckoutResult
  | created (orderId : Nat)
  | clientError (e : CheckoutError)
  | serverError
  deriving DecidableEq, Repr

/-- Order.PAYMENT_METHOD_CHOICES (src/orders/models.py lines 15-20). -/
def PAYMENT_METHOD_CHOICES : List String :=
  ["cash", "upi", "card", "netbanking"]

/-- Embeds CreateOrderSerializer.validate_shipping_address_id
(src/orders/serializers.py lines 75-81): the address row must exist and belong
to the requesting user. -/
def addressBelongsTo (db : DB) (userId aid : Nat) : Bool :=
  db.addresses.any (fun a => a.id == aid && a.user == userId)

/-- Embeds CreateOrderFromCartView.post (src/orders/views.py lines 79-114).
Serializer validation happens first; then, inside transaction.atomic, the
empty-cart check, total computation, Order creation, the per-line stock loop,
and the cart delete.  The insufficient-stock branch returns a 400 from inside
the atomic block, which COMMITS the order header, the order items created so
far and their stock decrements; the cart rows survive.  Branches where Python
raises (dangling product FK) roll back fully. -/
def createOrderFromCart (db : DB) (userId aid : Nat) (pm : String) : CheckoutResult × DB :=
  if PAYMENT_METHOD_CHOICES.contains pm then
    if addressBelongsTo db userId aid then
      if (db.cartItems.filter (fun ci => ci.user == userId)).isEmpty then
        (.clientError .emptyCart, db)
      else
        match computeTotal db.products (db.cartItems.filter (fun ci => ci.user == userId)) with
        | none => (.serverError, db)
        | some total =>
          match processItems db.nextOrderId db.products (db.cartItems.filter (fun ci => ci.user == userId)) with
          | .productMissing => (.serverError, db)
          | .insufficient nm ps2 news =>
            (.clientError (.insufficientStock nm),
              { db with
                  orders := db.orders ++ [⟨db.nextOrderId, userId, .pending, pm, aid, total⟩],
                  orderItems := db.orderItems ++ news,
                  products := ps2,
                  nextOrderId := db.nextOrderId + 1 })
          | .ok ps2 news =>
            (.created db.nextOrderId,
              { db with
                  orders := db.orders ++ [⟨db.nextOrderId, userId, .pending, pm, aid, total⟩],
                  orderItems := db.orderItems ++ news,
                  products := ps2,
                  cartItems := db.cartItems.filter (fun ci => !(ci.user == userId)),
                  nextOrderId := db.nextOrderId + 1 })
    else (.clientError .invalidAddress, db)
  else (.clientError .invalidPaymentMethod, db)

/-- The request body of the gateway callback
(src/orders/views.py lines 159-162): each field is absent or present. -/
structure RpRequest where
  razorpay_order_id : Option String
  razorpay_payment_id : Option String
  razorpay_signature : Option String
  shipping_address_id : Option Nat
  deriving DecidableEq, Repr

/-- Embeds RazorpayVerifyPaymentView.post (src/orders/views.py lines 157-230).
verifyOk abstracts the razorpay utility signature verification: true when
verify_payment_signature returns without raising, false when the signature
mismatches or the library raises any exception.  persistPaymentOk abstracts
whether OrderPayment.objects.create succeeds.  The create sits inside the
transaction.atomic block: when it fails, Model.save_base has already marked
the connection needs_rollback (mark_for_rollback_on_error) before the
`except Exception: pass` handler swallows the exception without logging, so
the atomic exit rolls back the ENTIRE unit -- order header, order lines,
stock decrements and the cart deletion -- while the view still returns 201
serializing the phantom in-memory order.
No serializer runs: shipping_address_id is taken raw from the request, with
only the database FK constraint (existence of the address row) standing between
it and the order insert; an FK violation raises, rolling back fully. -/
def razorpayVerify (db : DB) (userId : Nat) (req : RpRequest)
    (verifyOk persistPaymentOk : Bool) : CheckoutResult × DB :=
  match req.razorpay_order_id, req.razorpay_payment_id, req.razorpay_signature,
      req.shipping_address_id with
  | some roid, some rpid, some rsig, some aid =>
    if verifyOk then
      if (db.cartItems.filter (fun ci => ci.user == userId)).isEmpty then
        (.clientError .emptyCart, db)
      else
        match computeTotal db.products (db.cartItems.filter (fun ci => ci.user == userId)) with
        | none => (.serverError, db)
        | some total =>
          if db.addresses.any (fun a => a.id == aid) then
            match processItems db.nextOrderId db.products (db.cartItems.filter (fun ci => ci.user == userId)) with
            | .productMissing => (.serverError, db)
            | .insufficient nm ps2 news =>
              (.clientError (.insufficientStock nm),
                { db with
                    orders := db.orders ++ [⟨db.nextOrderId, userId, .pending, "razorpay", aid, total⟩],
                    orderItems := db.orderItems ++ news,
                    products := ps2,
                    nextOrderId := db.nextOrderId + 1 })
            | .ok ps2 news =>
              (.created db.nextOrderId,
                if persistPaymentOk then
                  { db with
                      orders := db.orders ++ [⟨db.nextOrderId, userId, .pending, "razorpay", aid, total⟩],
                      orderItems := db.orderItems ++ news,
                      products := ps2,
                      cartItems := db.cartItems.filter (fun ci => !(ci.user == userId)),
                      payments := db.payments ++ [⟨db.nextOrderId, "razorpay", total, "INR", "captured", "upi", roid, rpid, rsig⟩],
                      nextOrderId := db.nextOrderId + 1 }
                else db)
          else (.serverError, db)
    else (.clientError .paymentVerificationFailed, db)
  | _, _, _, _ => (.clientError .missingFields, db)

/-- Result of CancelOrderView.update (src/orders/views.py lines 58-72). -/
inductive CancelResult
  | ok
  | notPending
  | notFound
  deriving DecidableEq, Repr

/-- Embeds CancelOrderView.update (src/orders/views.py lines 51-72): the order
is looked up in the queryset filtered to the requesting user; only a pending
order may be cancelled. -/
def cancelOrder (db : DB) (userId oid : Nat) : CancelResult × DB :=
  match db.orders.find? (fun o => o.id == oid && o.user == userId) with
  | none => (.notFound, db)
  | some o =>
    if o.status = .pending then
      (.ok, { db with orders := db.orders.map (fun o2 => if o2.id == oid then { o2 with status := .cancelled } else o2) })
    else (.notPending, db)

/-- Result of AdminOrderUpdateView.update (src/orders/views.py lines 452-462). -/
inductive UpdateResult
  | ok
  | invalidStatus
  | notFound
  deriving DecidableEq, Repr

/-- Embeds AdminOrderUpdateView.update (src/orders/views.py lines 452-462)
together with AdminOrderUpdateSerializer.validate_status
(src/orders/serializers.py lines 144-148): the only rejected updates are those
moving a delivered order to a different status; every other assignment is
saved. -/
def adminUpdateStatus (db : DB) (oid : Nat) (newStatus : OrderStatus) : UpdateResult × DB :=
  match db.orders.find? (fun o => o.id == oid) with
  | none => (.notFound, db)
  | some o =>
    if o.status = .delivered ∧ newStatus ≠ .delivered then
      (.invalidStatus, db)
    else
      (.ok, { db with orders := db.orders.map (fun o2 => if o2.id == oid then { o2 with status := newStatus } else o2) })

/-- Result of CartListCreateView.perform_create (src/orders/views.py lines
240-241). -/
inductive AddResult
  | ok
  | integrityError
  deriving DecidableEq, Repr

/-- Embeds CartListCreateView.perform_create (src/orders/views.py lines
240-241) with CartItemSerializer (src/orders/serializers.py lines 50-57): a
plain row insert.  Neither the serializer nor the view merges with an existing
line; the unique_together constraint on (user, product)
(src/orders/models.py lines 98-99) makes a duplicate insert raise
IntegrityError, as does a dangling product id, rolling the insert back. -/
def cartAdd (db : DB) (userId pid qty : Nat) : AddResult × DB :=
  if db.cartItems.any (fun ci => ci.user == userId && ci.product_id == pid) then
    (.integrityError, db)
  else if db.products.any (fun p => p.id == pid) then
    (.ok, { db with cartItems := db.cartItems ++ [⟨userId, pid, qty⟩] })
  else (.integrityError, db)

/-- A checkout operation: either protocol (src/orders/views.py lines 79-114
and 157-230). -/
inductive Op
  | direct (userId aid : Nat) (pm : String)
  | gateway (userId : Nat) (req : RpRequest) (verifyOk persistPaymentOk : Bool)

/-- State reached after one checkout operation. -/
def applyOp (db : DB) : Op → DB
  | .direct u aid pm => (createOrderFromCart db u aid pm).2
  | .gateway u req v pp => (razorpayVerify db u req v pp).2

/-- State reached after a sequence of checkout operations. -/
def runOps (db : DB) : List Op → DB
  | [] => db
  | op :: rest => runOps (applyOp db op) rest

/-- State reached after a sequence of cart-add requests, each given as
(user, product id, quantity). -/
def runAdds (db : DB) : List (Nat × Nat × Nat) → DB
  | [] => db
  | (u, p, q) :: rest => runAdds (cartAdd db u p q).2 rest

/-- An admin product-price edit (products table only): the write performed by
the product update endpoint for the price field. -/
def setProductPrice (db : DB) (pid : Nat) (newPrice : Int) : DB :=
  { db with products := db.products.map (fun p => if p.id == pid then { p with price := newPrice } else p) }

/-- Reassigns every product is_active flag according to f.  Used to state that
checkout never consults the flag. -/
def setFlags (f : Nat → Bool) (ps : List Product) : List Product :=
  ps.map (fun p => { p with is_active := f p.id })

/-- Lifts setFlags to the whole database state. -/
def mapActive (f : Nat → Bool) (db : DB) : DB :=
  { db with products := setFlags f db.products }

/-- Reassigns every address owner according to f.  Used to state that the
gateway callback never consults address ownership. -/
def mapAddressOwner (f : Nat → Nat) (db : DB) : DB :=
  { db with addresses := db.addresses.map (fun a => { a with user := f a.id }) }

/-- The inventory invariant of the spec: product ids are unique (primary
keys) and every stock count is non-negative. -/
def StockOK (db : DB) : Prop :=
  (db.products.map Product.id).Nodup ∧ ∀ p ∈ db.products, 0 ≤ p.stock_count

/-- Concrete state exercising the insufficient-stock path of direct checkout:
user 1 owns address 1 and has a cart with one satisfiable line (product 1,
quantity 1 against stock 5) followed by an oversized line (product 2,
quantity 3 against stock 2). -/
def dbA : DB :=
  { products := [⟨1, "P1", 10, 5, true⟩, ⟨2, "P2", 4, 2, true⟩],
    addresses := [⟨1, 1⟩],
    cartItems := [⟨1, 1, 1⟩, ⟨1, 2, 3⟩],
    orders := [], orderItems := [], payments := [], logs := [], nextOrderId := 1 }

/-- Concrete state where address 5 belongs to user 2 while user 1 checks out
through the gateway with a full cart and ample stock. -/
def dbB : DB :=
  { products := [⟨1, "P1", 3, 5, true⟩],
    addresses := [⟨5, 2⟩],
    cartItems := [⟨1, 1, 2⟩],
    orders := [], orderItems := [], payments := [], logs := [], nextOrderId := 1 }

/-- Gateway callback payload naming address 5. -/
def reqB : RpRequest :=
  { razorpay_order_id := some "order_b", razorpay_payment_id := some "pay_b",
    razorpay_signature := some "sig_b", shipping_address_id := some 5 }

/-- Concrete state for a gateway checkout by user 1 with their own address 1. -/
def dbG : DB :=
  { products := [⟨1, "P1", 3, 5, true⟩],
    addresses := [⟨1, 1⟩],
    cartItems := [⟨1, 1, 2⟩],
    orders := [], orderItems := [], payments := [], logs := [], nextOrderId := 1 }

/-- Gateway callback payload naming address 1. -/
def reqG : RpRequest :=
  { razorpay_order_id := some "order_g", razorpay_payment_id := some "pay_g",
    razorpay_signature := some "sig_g", shipping_address_id := some 1 }

/-- Concrete state with a shipped order (id 1) and a delivered order (id 2),
both owned by user 1. -/
def dbS : DB :=
  { products := [], addresses := [⟨1, 1⟩], cartItems := [],
    orders := [⟨1, 1, .shipped, "cash", 1, 10⟩, ⟨2, 1, .delivered, "cash", 1, 7⟩],
    orderItems := [], payments := [], logs := [], nextOrderId := 3 }

/-- Concrete state for a successful two-line direct checkout by user 1. -/
def dbW : DB :=
  { products := [⟨1, "P1", 10, 5, true⟩, ⟨2, "P2", 5, 4, true⟩],
    addresses := [⟨1, 1⟩],
    cartItems := [⟨1, 1, 1⟩, ⟨1, 2, 2⟩],
    orders := [], orderItems := [], payments := [], logs := [], nextOrderId := 1 }

/-- Concrete state whose cart already holds a line (user 1, product 1). -/
def dbK : DB :=
  { products := [⟨1, "P1", 10, 5, true⟩],
    addresses := [], cartItems := [⟨1, 1, 2⟩],
    orders := [], orderItems := [], payments := [], logs := [], nextOrderId := 1 }

/-- Concrete state with an empty cart for user 1 (as after a first successful
gateway checkout cleared it), one prior order and its payment record. -/
def dbE : DB :=
  { products := [⟨1, "P1", 3, 3, true⟩],
    addresses := [⟨1, 1⟩],
    cartItems := [],
    orders := [⟨1, 1, .pending, "razorpay", 1, 6⟩],
    orderItems := [⟨1, 1, 2, 3⟩],
    payments := [⟨1, "razorpay", 6, "INR", "captured", "upi", "order_g", "pay_g", "sig_g"⟩],
    logs := [], nextOrderId := 2 }

/-! ## Generic lemmas about the product table -/

/-- find? commutes with an id-preserving rewrite of the product table. -/
theorem findProduct_map (g : Product → Product) (hg : ∀ p, (g p).id = p.id)
    (ps : List Product) (pid : Nat) :
    findProduct (ps.map g) pid = (findProduct ps pid).map g := by
  induction ps with
  | nil => rfl
  | cons p ps ih =>
    simp only [findProduct, List.map_cons, List.find?] at *
    rw [hg p]
    cases h : (p.id == pid) with
    | true => rfl
    | false => exact ih

/-- The stock decrement preserves the id of every row. -/
theorem updateStock_id (pid qty : Nat) (p : Product) :
    (if p.id == pid then { p with stock_count := p.stock_count - (qty : Int) } else p).id = p.id := by
  split <;> rfl

/-- The stock decrement preserves the price of every row. -/
theorem updateStock_price (pid qty : Nat) (p : Product) :
    (if p.id == pid then { p with stock_count := p.stock_count - (qty : Int) } else p).price = p.price := by
  split <;> rfl

/-- Resolving a product after a stock decrement yields the decremented row. -/
theorem findProduct_updateStock (ps : List Product) (pid qty pid2 : Nat) :
    findProduct (updateStock ps pid qty) pid2
      = (findProduct ps pid2).map
          (fun p => if p.id == pid then { p with stock_count := p.stock_count - (qty : Int) } else p) := by
  unfold updateStock
  exact findProduct_map _ (fun p => updateStock_id pid qty p) ps pid2

/-- The cart total only reads ids and prices, so it is stable under any
id- and price-preserving rewrite of the product table. -/
theorem computeTotal_map (g : Product → Product) (hid : ∀ p, (g p).id = p.id)
    (hprice : ∀ p, (g p).price = p.price) (ps : List Product)
    (items : List CartItem) :
    computeTotal (ps.map g) items = computeTotal ps items := by
  induction items with
  | nil => rfl
  | cons ci rest ih =>
    simp only [computeTotal]
    rw [findProduct_map g hid ps ci.product_id]
    cases findProduct ps ci.product_id with
    | none => rfl
    | some p =>
      simp only [Option.map_some', Option.some_bind]
      rw [ih]
      cases computeTotal ps rest with
      | none => rfl
      | some t => simp [hprice p]

/-- Stock decrements leave the cart total unchanged. -/
theorem computeTotal_updateStock (ps : List Product) (pid qty : Nat)
    (items : List CartItem) :
    computeTotal (updateStock ps pid qty) items = computeTotal ps items := by
  unfold updateStock
  exact computeTotal_map _ (fun p => updateStock_id pid qty p)
    (fun p => updateStock_price pid qty p) ps items

/-- Reassigning active flags leaves the cart total unchanged. -/
theorem computeTotal_setFlags (f : Nat → Bool) (ps : List Product)
    (items : List CartItem) :
    computeTotal (setFlags f ps) items = computeTotal ps items := by
  unfold setFlags
  exact computeTotal_map (fun p => { p with is_active := f p.id })
    (fun _ => rfl) (fun _ => rfl) ps items

/-- Stock decrements do not change the list of product ids. -/
theorem updateStock_map_id (ps : List Product) (pid qty : Nat) :
    (updateStock ps pid qty).map Product.id = ps.map Product.id := by
  unfold updateStock
  rw [List.map_map]
  exact List.map_congr_left (fun p _ => updateStock_id pid qty p)

/-! ## Lemmas about the per-line checkout loop -/

/-- On success the loop captures, line by line, exactly the prices the total
was computed from: the sum of the created OrderItem totals is the computed
cart total, and every created row points at the new order. -/
theorem processItems_ok_total (oid : Nat) (items : List CartItem) :
    ∀ (ps ps2 : List Product) (news : List OrderItem),
      processItems oid ps items = .ok ps2 news →
      computeTotal ps items = some ((news.map OrderItem.total_price).sum) ∧
      ∀ it ∈ news, it.order_id = oid := by
  induction items with
  | nil =>
    intro ps ps2 news h
    simp only [processItems] at h
    cases h
    refine ⟨by simp [computeTotal], ?_⟩
    intro it hit
    cases hit
  | cons ci rest ih =>
    intro ps ps2 news h
    simp only [processItems] at h
    cases hp : findProduct ps ci.product_id with
    | none => rw [hp] at h; cases h
    | some p =>
      rw [hp] at h
      dsimp only at h
      by_cases hs : p.stock_count < (ci.quantity : Int)
      · rw [if_pos hs] at h; cases h
      · rw [if_neg hs] at h
        cases hrec : processItems oid (updateStock ps ci.product_id ci.quantity) rest with
        | productMissing => rw [hrec] at h; cases h
        | insufficient nm ps3 news3 => rw [hrec] at h; cases h
        | ok ps3 news3 =>
          rw [hrec] at h
          cases h
          obtain ⟨iht, ihm⟩ := ih (updateStock ps ci.product_id ci.quantity) ps2 news3 hrec
          rw [computeTotal_updateStock] at iht
          constructor
          · simp only [computeTotal, hp, Option.some_bind, iht]
            simp [OrderItem.total_price, mul_comm]
          · intro it hit
            rcases List.mem_cons.mp hit with h1 | h1
            · subst h1; rfl
            · exact ihm it h1

/-- Guarded decrements keep every stock non-negative, provided product ids are
unique (they are primary keys). -/
theorem updateStock_nonneg (ps : List Product) (pid qty : Nat) (p : Product)
    (hnd : (ps.map Product.id).Nodup)
    (hpos : ∀ q ∈ ps, 0 ≤ q.stock_count)
    (hfind : findProduct ps pid = some p)
    (hq : (qty : Int) ≤ p.stock_count) :
    ∀ q ∈ updateStock ps pid qty, 0 ≤ q.stock_count := by
  intro q hqmem
  unfold updateStock at hqmem
  rw [List.mem_map] at hqmem
  obtain ⟨r, hr, hrq⟩ := hqmem
  subst hrq
  by_cases h : (r.id == pid) = true
  · have hrid : r.id = pid := by simpa using h
    have hpmem : p ∈ ps := List.mem_of_find?_eq_some hfind
    have hpid : p.id = pid := by
      have h2 := List.find?_some hfind
      simpa using h2
    have hrp : r = p := List.inj_on_of_nodup_map hnd hr hpmem (by rw [hrid, hpid])
    subst hrp
    simp only [if_pos h]
    omega
  · simp only [if_neg h]
    exact hpos r hr

/-- Any outcome of the loop (success, or the partial state committed by the
early insufficient-stock return) preserves id uniqueness and stock
non-negativity. -/
theorem processItems_nonneg (oid : Nat) (items : List CartItem) :
    ∀ ps : List Product,
      (ps.map Product.id).Nodup → (∀ p ∈ ps, 0 ≤ p.stock_count) →
      ∀ (ps2 : List Product) (news : List OrderItem),
        (processItems oid ps items = .ok ps2 news ∨
          ∃ nm, processItems oid ps items = .insufficient nm ps2 news) →
        (ps2.map Product.id).Nodup ∧ ∀ p ∈ ps2, 0 ≤ p.stock_count := by
  induction items with
  | nil =>
    intro ps hnd hpos ps2 news h
    rcases h with h | ⟨nm, h⟩
    · simp only [processItems] at h; cases h; exact ⟨hnd, hpos⟩
    · simp only [processItems] at h; cases h
  | cons ci rest ih =>
    intro ps hnd hpos ps2 news h
    have hnd2 : ∀ qty : Nat, ((updateStock ps ci.product_id qty).map Product.id).Nodup := by
      intro qty; rw [updateStock_map_id]; exact hnd
    rcases h with h | ⟨nm, h⟩
    · simp only [processItems] at h
      cases hp : findProduct ps ci.product_id with
      | none => rw [hp] at h; cases h
      | some p =>
        rw [hp] at h
        dsimp only at h
        by_cases hs : p.stock_count < (ci.quantity : Int)
        · rw [if_pos hs] at h; cases h
        · rw [if_neg hs] at h
          have hpos2 : ∀ q ∈ updateStock ps ci.product_id ci.quantity, 0 ≤ q.stock_count :=
            updateStock_nonneg ps ci.product_id ci.quantity p hnd hpos hp (by omega)
          cases hrec : processItems oid (updateStock ps ci.product_id ci.quantity) rest with
          | productMissing => rw [hrec] at h; cases h
          | insufficient nm3 ps3 news3 => rw [hrec] at h; cases h
          | ok ps3 news3 =>
            rw [hrec] at h; cases h
            exact ih _ (hnd2 ci.quantity) hpos2 ps2 news3 (Or.inl hrec)
    · simp only [processItems] at h
      cases hp : findProduct ps ci.product_id with
      | none => rw [hp] at h; cases h
      | some p =>
        rw [hp] at h
        dsimp only at h
        by_cases hs : p.stock_count < (ci.quantity : Int)
        · rw [if_pos hs] at h; cases h; exact ⟨hnd, hpos⟩
        · rw [if_neg hs] at h
          have hpos2 : ∀ q ∈ updateStock ps ci.product_id ci.quantity, 0 ≤ q.stock_count :=
            updateStock_nonneg ps ci.product_id ci.quantity p hnd hpos hp (by omega)
          cases hrec : processItems oid (updateStock ps ci.product_id ci.quantity) rest with
          | productMissing => rw [hrec] at h; cases h
          | insufficient nm3 ps3 news3 =>
            rw [hrec] at h; cases h
            exact ih _ (hnd2 ci.quantity) hpos2 ps2 news3 (Or.inr ⟨nm, hrec⟩)
          | ok ps3 news3 => rw [hrec] at h; cases h

/-! ## The checkout loop never reads the is_active flag -/

/-- Stock decrements commute with reassigning active flags. -/
theorem updateStock_setFlags (f : Nat → Bool) (ps : List Product) (pid qty : Nat) :
    updateStock (setFlags f ps) pid qty = setFlags f (updateStock ps pid qty) := by
  unfold updateStock setFlags
  rw [List.map_map, List.map_map]
  refine List.map_congr_left (fun p _ => ?_)
  dsimp only [Function.comp]
  by_cases h : (p.id == pid) = true
  · simp only [if_pos h]
  · simp only [if_neg h]

/-- The loop is oblivious to active flags: running it on a table with
reassigned flags gives the same outcome, with flags reassigned in the final
table. -/
theorem processItems_setFlags (f : Nat → Bool) (oid : Nat) (items : List CartItem) :
    ∀ ps : List Product,
      processItems oid (setFlags f ps) items =
        match processItems oid ps items with
        | .ok ps2 news => .ok (setFlags f ps2) news
        | .insufficient nm ps2 news => .insufficient nm (setFlags f ps2) news
        | .productMissing => .productMissing := by
  induction items with
  | nil => intro ps; rfl
  | cons ci rest ih =>
    intro ps
    simp only [processItems]
    have hf : findProduct (setFlags f ps) ci.product_id
        = (findProduct ps ci.product_id).map (fun p => { p with is_active := f p.id }) := by
      unfold setFlags
      exact findProduct_map (fun p => { p with is_active := f p.id })
        (fun _ => rfl) ps ci.product_id
    rw [hf]
    cases hp : findProduct ps ci.product_id with
    | none => rfl
    | some p =>
      simp only [Option.map_some']
      by_cases hs : p.stock_count < (ci.quantity : Int)
      · rw [if_pos hs, if_pos hs]
      · rw [if_neg hs, if_neg hs]
        rw [updateStock_setFlags, ih (updateStock ps ci.product_id ci.quantity)]
        cases processItems oid (updateStock ps ci.product_id ci.quantity) rest <;> rfl

/-! ## Claim theorems -/

/-- C1: the spec demands that an insufficient-stock failure during direct
checkout abort the entire atomic unit: no order row, no order lines, no stock
decrement, cart unchanged.  The code returns the 400 response from inside
transaction.atomic, which commits; evaluated at the failing input, the order
header for 22.00, the order line for product 1 and the decrement of product 1
stock (5 to 4) are all persisted while the error names product P2.  Only the
cart is indeed unchanged. -/
theorem c1_insufficient_stock_commits_partial_state :
    (createOrderFromCart dbA 1 1 "cash").1 = .clientError (.insufficientStock "P2") ∧
    (createOrderFromCart dbA 1 1 "cash").2.orders = [⟨1, 1, .pending, "cash", 1, 22⟩] ∧
    (createOrderFromCart dbA 1 1 "cash").2.orderItems = [⟨1, 1, 1, 10⟩] ∧
    findProduct (createOrderFromCart dbA 1 1 "cash").2.products 1 = some ⟨1, "P1", 10, 4, true⟩ ∧
    (createOrderFromCart dbA 1 1 "cash").2.cartItems = dbA.cartItems := by
  decide

/-- C4: a gateway callback with all fields present whose signature fails to
verify, or whose verification library raises (both abstracted by
verifyOk = false), is rejected as a payment-verification failure with the
database, hence stock, cart lines, orders and payment records, completely
unchanged. -/
theorem c4_failed_verification_rejects_without_mutation
    (db : DB) (u : Nat) (roid rpid rsig : String) (aid : Nat) (pp : Bool) :
    razorpayVerify db u ⟨some roid, some rpid, some rsig, some aid⟩ false pp
      = (.clientError .paymentVerificationFailed, db) := rfl

/-- C9: resubmitting a validly signed callback after the first success cleared
the cart fails with the empty-cart error and returns the database unchanged:
no second order and no second payment record are created. -/
theorem c9_resubmission_fails_with_empty_cart
    (db : DB) (u : Nat) (roid rpid rsig : String) (aid : Nat) (pp : Bool)
    (h : db.cartItems.filter (fun ci => ci.user == u) = []) :
    razorpayVerify db u ⟨some roid, some rpid, some rsig, some aid⟩ true pp
      = (.clientError .emptyCart, db) := by
  simp [razorpayVerify, h]

/-- Witness for C9: the concrete post-success state dbE has an empty cart for
user 1, and resubmitting the very payload stored in its payment record yields
the empty-cart rejection with nothing changed. -/
theorem c9_witness :
    dbE.cartItems.filter (fun ci => ci.user == 1) = [] ∧
    razorpayVerify dbE 1 ⟨some "order_g", some "pay_g", some "sig_g", some 1⟩ true true
      = (.clientError .emptyCart, dbE) :=
  ⟨by decide,
    c9_resubmission_fails_with_empty_cart dbE 1 "order_g" "pay_g" "sig_g" 1 true (by decide)⟩

/-- C2 counterexample: user 1 submits a verified callback naming address 5,
owned by user 2.  The claim says phase 2 fails with an invalid-address error
and creates no order; the code instead creates and commits the order,
referencing the foreign address. -/
theorem c2_counterexample_foreign_address_accepted :
    (∀ a ∈ dbB.addresses, ¬(a.id = 5 ∧ a.user = 1)) ∧
    (razorpayVerify dbB 1 reqB true true).1 = .created 1 ∧
    (razorpayVerify dbB 1 reqB true true).2.orders = [⟨1, 1, .pending, "razorpay", 5, 6⟩] := by
  decide

/-- C3: the spec demands that a payment-record persistence failure leave the
already-committed order in place and be logged as a reconciliation gap.  In
the code the OrderPayment insert sits inside transaction.atomic: a failed
insert has already marked the transaction for rollback before the except-pass
handler swallows the exception without logging, so the atomic exit rolls back
the whole unit while the view still returns 201.  Evaluated at the failing
input: success is reported with the phantom order id, yet the database is
exactly the pre-checkout state (no order, no payment row, cart intact) and no
log entry exists, whereas the same checkout with a succeeding insert does
commit the order. -/
theorem c3_persist_failure_rolls_back_order_yet_reports_success :
    (razorpayVerify dbG 1 reqG true false).1 = .created 1 ∧
    (razorpayVerify dbG 1 reqG true false).2 = dbG ∧
    (razorpayVerify dbG 1 reqG true false).2.payments = [] ∧
    (razorpayVerify dbG 1 reqG true false).2.logs = dbG.logs ∧
    (razorpayVerify dbG 1 reqG true true).2.orders = [⟨1, 1, .pending, "razorpay", 1, 6⟩] := by
  decide

/-- C5 counterexample: the admin status update moves the shipped order 1 back
to pending, a transition outside the claimed set, reporting success and
changing the stored status, instead of failing with an invalid-transition
error. -/
theorem c5_counterexample_shipped_to_pending_permitted :
    (adminUpdateStatus dbS 1 .pending).1 = .ok ∧
    (adminUpdateStatus dbS 1 .pending).2.orders
      = [⟨1, 1, .pending, "cash", 1, 10⟩, ⟨2, 1, .delivered, "cash", 1, 7⟩] := by
  decide

/-- C8 counterexample: user 1 already has a cart line for product 1 with
quantity 2; adding quantity 3 does not merge to 5 but fails on the uniqueness
constraint, leaving the cart unchanged. -/
theorem c8_counterexample_second_add_fails_instead_of_merging :
    cartAdd dbK 1 1 3 = (.integrityError, dbK) ∧
    (cartAdd dbK 1 1 3).2.cartItems = [⟨1, 1, 2⟩] := by
  decide

/-- C5 (amended): user cancellation permits only pending-to-cancelled and
rejects anything else unchanged; admin updates reject exactly the transitions
moving a delivered order elsewhere, and save every other assignment, including
backward or skipping ones. -/
theorem c5_amended_transition_policy (db : DB) (u oid : Nat) (s : OrderStatus) :
    (∀ o, db.orders.find? (fun o2 => o2.id == oid && o2.user == u) = some o →
      o.status ≠ .pending → cancelOrder db u oid = (.notPending, db)) ∧
    (∀ o, db.orders.find? (fun o2 => o2.id == oid) = some o →
      o.status = .delivered → s ≠ .delivered →
      adminUpdateStatus db oid s = (.invalidStatus, db)) ∧
    (∀ o, db.orders.find? (fun o2 => o2.id == oid) = some o →
      (o.status ≠ .delivered ∨ s = .delivered) →
      adminUpdateStatus db oid s
        = (.ok, { db with orders := (db.orders.map
            (fun o2 => if o2.id == oid then { o2 with status := s } else o2)) })) := by
  refine ⟨?_, ?_, ?_⟩
  · intro o hf hs
    simp only [cancelOrder, hf]
    rw [if_neg hs]
  · intro o hf hd hs
    simp only [adminUpdateStatus, hf]
    rw [if_pos ⟨hd, hs⟩]
  · intro o hf hor
    simp only [adminUpdateStatus, hf]
    rw [if_neg (by tauto)]

/-- Witness for C5 (amended): cancelling the shipped order 1 fails and changes
nothing; the admin moving delivered order 2 to pending fails and changes
nothing; the admin moving shipped order 1 to confirmed succeeds. -/
theorem c5_amended_transition_policy_witness :
    cancelOrder dbS 1 1 = (.notPending, dbS) ∧
    adminUpdateStatus dbS 2 .pending = (.invalidStatus, dbS) ∧
    adminUpdateStatus dbS 1 .confirmed
      = (.ok, { dbS with orders := (dbS.orders.map
          (fun o2 => if o2.id == 1 then { o2 with status := OrderStatus.confirmed } else o2)) }) :=
  ⟨(c5_amended_transition_policy dbS 1 1 OrderStatus.pending).1
      ⟨1, 1, .shipped, "cash", 1, 10⟩ (by decide) (by decide),
   (c5_amended_transition_policy dbS 1 2 OrderStatus.pending).2.1
      ⟨2, 1, .delivered, "cash", 1, 7⟩ (by decide) (by decide) (by decide),
   (c5_amended_transition_policy dbS 1 1 OrderStatus.confirmed).2.2
      ⟨1, 1, .shipped, "cash", 1, 10⟩ (by decide) (Or.inl (by decide))⟩

/-- A single cart add preserves at-most-one-line-per-(user, product). -/
theorem cartAdd_pairwise (db : DB) (u pid qty : Nat)
    (hpair : db.cartItems.Pairwise
      (fun a b => ¬(a.user = b.user ∧ a.product_id = b.product_id))) :
    (cartAdd db u pid qty).2.cartItems.Pairwise
      (fun a b => ¬(a.user = b.user ∧ a.product_id = b.product_id)) := by
  unfold cartAdd
  split
  · exact hpair
  · split
    · rename_i hnone _
      rw [Bool.not_eq_true, List.any_eq_false] at hnone
      dsimp only
      rw [List.pairwise_append]
      refine ⟨hpair, List.pairwise_singleton _ _, ?_⟩
      intro a ha b hb hab
      have hb2 : b = (⟨u, pid, qty⟩ : CartItem) := by simpa using hb
      subst hb2
      have := hnone a ha
      simp only [Bool.and_eq_true, beq_iff_eq] at this
      exact this ⟨hab.1, hab.2⟩
    · exact hpair

/-- Any sequence of cart adds preserves at-most-one-line-per-(user, product). -/
theorem runAdds_pairwise (adds : List (Nat × Nat × Nat)) :
    ∀ db : DB,
      db.cartItems.Pairwise
        (fun a b => ¬(a.user = b.user ∧ a.product_id = b.product_id)) →
      (runAdds db adds).cartItems.Pairwise
        (fun a b => ¬(a.user = b.user ∧ a.product_id = b.product_id)) := by
  induction adds with
  | nil => intro db h; exact h
  | cons add rest ih =>
    intro db h
    obtain ⟨u, pid, qty⟩ := add
    exact ih (cartAdd db u pid qty).2 (cartAdd_pairwise db u pid qty h)

/-- C8 (amended): adding a product for which the user already has a cart line
does not merge quantities; the insert fails on the uniqueness constraint and
leaves the database unchanged.  Consequently any sequence of cart adds
starting from a state with at most one line per (user, product) pair keeps at
most one line per pair. -/
theorem c8_amended_add_fails_and_uniqueness_holds
    (db : DB) (u pid qty : Nat) (adds : List (Nat × Nat × Nat))
    (hdup : db.cartItems.any (fun ci => ci.user == u && ci.product_id == pid) = true)
    (hpair : db.cartItems.Pairwise
      (fun a b => ¬(a.user = b.user ∧ a.product_id = b.product_id))) :
    cartAdd db u pid qty = (.integrityError, db) ∧
    (runAdds db adds).cartItems.Pairwise
      (fun a b => ¬(a.user = b.user ∧ a.product_id = b.product_id)) := by
  constructor
  · unfold cartAdd
    rw [if_pos hdup]
  · exact runAdds_pairwise adds db hpair

/-- Witness for C8 (amended): in the concrete state dbK, re-adding product 1
for user 1 fails with an integrity error and the state is unchanged, and a
sequence of further adds keeps the pair uniqueness. -/
theorem c8_amended_witness :
    cartAdd dbK 1 1 3 = (.integrityError, dbK) ∧
    (runAdds dbK [(1, 1, 4), (2, 1, 1)]).cartItems.Pairwise
      (fun a b => ¬(a.user = b.user ∧ a.product_id = b.product_id)) :=
  c8_amended_add_fails_and_uniqueness_holds dbK 1 1 3 [(1, 1, 4), (2, 1, 1)]
    (by decide) (by decide)

/-- Reassigning address owners never changes which ids exist. -/
theorem mapAddressOwner_any_id (f : Nat → Nat) (as : List Address) (aid : Nat) :
    ((as.map (fun a => { a with user := f a.id })).any (fun a => a.id == aid))
      = as.any (fun a => a.id == aid) := by
  rw [List.any_map]
  rfl

/-- C2 (amended): on a verified signature, phase 2 executes the cart, stock,
order and cart-clearing steps with payment method fixed to razorpay, but
skips the address-ownership validation of direct checkout step 2: its outcome
is entirely independent of which user owns the supplied address reference,
and an existing address of any owner is accepted (only a dangling reference
aborts, through the foreign-key constraint, as a server error). -/
theorem c2_amended_ownership_never_consulted
    (f : Nat → Nat) (db : DB) (u : Nat) (req : RpRequest) (v pp : Bool) :
    razorpayVerify (mapAddressOwner f db) u req v pp
      = ((razorpayVerify db u req v pp).1,
        mapAddressOwner f (razorpayVerify db u req v pp).2) := by
  obtain ⟨ro, rp, rs, sa⟩ := req
  cases ro <;> cases rp <;> cases rs <;> cases sa <;> try rfl
  cases v
  · rfl
  · simp only [razorpayVerify, mapAddressOwner]
    rw [mapAddressOwner_any_id]
    repeat' split
    all_goals simp_all

/-- C10: neither checkout path ever consults the product is_active flag:
reassigning every flag arbitrarily (in particular deactivating every product)
commutes with both checkout operations, so a cart holding a deactivated
product checks out exactly as if the product were active, at its current
price and decrementing its stock. -/
theorem c10_checkout_never_consults_is_active
    (f : Nat → Bool) (db : DB) (u aid : Nat) (pm : String)
    (req : RpRequest) (v pp : Bool) :
    createOrderFromCart (mapActive f db) u aid pm
      = ((createOrderFromCart db u aid pm).1,
        mapActive f (createOrderFromCart db u aid pm).2) ∧
    razorpayVerify (mapActive f db) u req v pp
      = ((razorpayVerify db u req v pp).1,
        mapActive f (razorpayVerify db u req v pp).2) := by
  constructor
  · simp only [createOrderFromCart, mapActive, addressBelongsTo]
    rw [computeTotal_setFlags, processItems_setFlags]
    repeat' split
    all_goals simp_all [setFlags]
  · obtain ⟨ro, rp, rs, sa⟩ := req
    cases ro <;> cases rp <;> cases rs <;> cases sa <;> try rfl
    cases v
    · rfl
    · simp only [razorpayVerify, mapActive]
      rw [computeTotal_setFlags, processItems_setFlags]
      repeat' split
      all_goals simp_all [setFlags]

/-- Inversion of a successful direct checkout: success happens exactly in the
branch where the cart total computed and every line reserved, and the final
state appends the order header, appends the created lines, installs the
decremented product table and clears the cart of the user. -/
theorem createOrderFromCart_created_inv (db : DB) (u aid : Nat) (pm : String) (oid : Nat)
    (h : (createOrderFromCart db u aid pm).1 = .created oid) :
    oid = db.nextOrderId ∧
    ∃ total ps2 news,
      computeTotal db.products (db.cartItems.filter (fun ci => ci.user == u)) = some total ∧
      processItems db.nextOrderId db.products (db.cartItems.filter (fun ci => ci.user == u)) = .ok ps2 news ∧
      (createOrderFromCart db u aid pm).2
        = { db with
            orders := db.orders ++ [⟨db.nextOrderId, u, .pending, pm, aid, total⟩],
            orderItems := db.orderItems ++ news,
            products := ps2,
            cartItems := db.cartItems.filter (fun ci => !(ci.user == u)),
            nextOrderId := db.nextOrderId + 1 } := by
  revert h
  unfold createOrderFromCart
  repeat' split
  all_goals intro h
  all_goals simp at h
  rename_i hpm haddr hne xo total htotal xl ps2 news hproc
  refine ⟨h.symm, total, ps2, news, htotal, hproc, ?_⟩
  rfl

/-- C6: a successfully created order records as its total exactly the sum of
its persisted order lines (quantity times the unit price captured at creation
time), and a later change of any product price leaves both the orders and the
captured order lines untouched. -/
theorem c6_total_is_sum_of_captured_lines
    (db : DB) (u aid : Nat) (pm : String) (oid : Nat)
    (hfresh : ∀ it ∈ db.orderItems, it.order_id ≠ db.nextOrderId)
    (h : (createOrderFromCart db u aid pm).1 = .created oid) :
    (∃ o ∈ (createOrderFromCart db u aid pm).2.orders,
      o.id = oid ∧
      o.total_amount
        = (((createOrderFromCart db u aid pm).2.orderItems.filter
            (fun it => it.order_id == oid)).map OrderItem.total_price).sum) ∧
    (∀ pid newPrice,
      (setProductPrice (createOrderFromCart db u aid pm).2 pid newPrice).orders
        = (createOrderFromCart db u aid pm).2.orders ∧
      (setProductPrice (createOrderFromCart db u aid pm).2 pid newPrice).orderItems
        = (createOrderFromCart db u aid pm).2.orderItems) := by
  obtain ⟨hoid, total, ps2, news, htotal, hproc, hstate⟩ :=
    createOrderFromCart_created_inv db u aid pm oid h
  subst hoid
  obtain ⟨hsum, hmem⟩ :=
    processItems_ok_total db.nextOrderId
      (db.cartItems.filter (fun ci => ci.user == u)) db.products ps2 news hproc
  rw [htotal] at hsum
  have htot : total = (news.map OrderItem.total_price).sum := Option.some.inj hsum
  constructor
  · refine ⟨⟨db.nextOrderId, u, .pending, pm, aid, total⟩, ?_, rfl, ?_⟩
    · rw [hstate]
      exact List.mem_append_right _ (List.mem_singleton_self _)
    · rw [hstate]
      dsimp only
      rw [List.filter_append]
      have h1 : db.orderItems.filter (fun it => it.order_id == db.nextOrderId) = [] := by
        rw [List.filter_eq_nil_iff]
        intro it hit
        simpa using hfresh it hit
      have h2 : news.filter (fun it => it.order_id == db.nextOrderId) = news := by
        rw [List.filter_eq_self]
        intro it hit
        simpa using hmem it hit
      rw [h1, h2, List.nil_append]
      exact htot
  · intro pid np
    exact ⟨rfl, rfl⟩

/-- Witness for C6 at the concrete state dbW: the checkout succeeds with order
id 1 and the theorem applies, with both hypotheses discharged by evaluation. -/
theorem c6_witness :
    ((∀ it ∈ dbW.orderItems, it.order_id ≠ dbW.nextOrderId) ∧
      (createOrderFromCart dbW 1 1 "cash").1 = .created 1) ∧
    (∃ o ∈ (createOrderFromCart dbW 1 1 "cash").2.orders,
      o.id = 1 ∧
      o.total_amount
        = (((createOrderFromCart dbW 1 1 "cash").2.orderItems.filter
            (fun it => it.order_id == 1)).map OrderItem.total_price).sum) ∧
    (∀ pid newPrice,
      (setProductPrice (createOrderFromCart dbW 1 1 "cash").2 pid newPrice).orders
        = (createOrderFromCart dbW 1 1 "cash").2.orders ∧
      (setProductPrice (createOrderFromCart dbW 1 1 "cash").2 pid newPrice).orderItems
        = (createOrderFromCart dbW 1 1 "cash").2.orderItems) :=
  ⟨⟨by decide, by decide⟩,
    c6_total_is_sum_of_captured_lines dbW 1 1 "cash" 1 (by decide) (by decide)⟩

/-- Direct checkout preserves the inventory invariant in every branch,
including the partially committed insufficient-stock branch. -/
theorem createOrderFromCart_stockOK (db : DB) (u aid : Nat) (pm : String)
    (h : StockOK db) : StockOK (createOrderFromCart db u aid pm).2 := by
  obtain ⟨h1, h2⟩ := h
  unfold createOrderFromCart StockOK
  repeat' split
  all_goals dsimp only
  all_goals try exact ⟨h1, h2⟩
  all_goals
    first
      | exact processItems_nonneg db.nextOrderId _ db.products h1 h2 _ _ (Or.inl (by assumption))
      | exact processItems_nonneg db.nextOrderId _ db.products h1 h2 _ _ (Or.inr ⟨_, by assumption⟩)

/-- Gateway checkout preserves the inventory invariant in every branch. -/
theorem razorpayVerify_stockOK (db : DB) (u : Nat) (req : RpRequest) (v pp : Bool)
    (h : StockOK db) : StockOK (razorpayVerify db u req v pp).2 := by
  obtain ⟨h1, h2⟩ := h
  obtain ⟨ro, rp, rs, sa⟩ := req
  cases ro <;> cases rp <;> cases rs <;> cases sa <;> try exact ⟨h1, h2⟩
  unfold razorpayVerify StockOK
  repeat' split
  all_goals dsimp only
  all_goals try exact ⟨h1, h2⟩
  all_goals
    first
      | exact processItems_nonneg db.nextOrderId _ db.products h1 h2 _ _ (Or.inl (by assumption))
      | exact processItems_nonneg db.nextOrderId _ db.products h1 h2 _ _ (Or.inr ⟨_, by assumption⟩)

/-- One checkout operation of either protocol preserves the invariant. -/
theorem applyOp_stockOK (db : DB) (op : Op) (h : StockOK db) :
    StockOK (applyOp db op) := by
  cases op with
  | direct u aid pm => exact createOrderFromCart_stockOK db u aid pm h
  | gateway u req v pp => exact razorpayVerify_stockOK db u req v pp h

/-- Any sequence of checkout operations preserves the invariant. -/
theorem runOps_stockOK (ops : List Op) :
    ∀ db : DB, StockOK db → StockOK (runOps db ops) := by
  induction ops with
  | nil => intro db h; exact h
  | cons op rest ih => intro db h; exact ih (applyOp db op) (applyOp_stockOK db op h)

/-- C7: from any state with unique product ids and non-negative stocks, every
state reachable by any sequence of direct or gateway checkouts has only
non-negative stocks; moreover one reservation step succeeds exactly when the
current stock covers the requested quantity, failing with the product name
otherwise, and on success creates the order line and decrements that product
by exactly the quantity inside the same unit. -/
theorem c7_stock_never_negative
    (db : DB) (ops : List Op)
    (hnd : (db.products.map Product.id).Nodup)
    (hpos : ∀ p ∈ db.products, 0 ≤ p.stock_count) :
    (∀ p ∈ (runOps db ops).products, 0 ≤ p.stock_count) ∧
    (∀ (oid : Nat) (ps : List Product) (ci : CartItem) (p : Product),
      findProduct ps ci.product_id = some p →
      (p.stock_count < (ci.quantity : Int) →
        processItems oid ps [ci] = .insufficient p.name ps []) ∧
      ((ci.quantity : Int) ≤ p.stock_count →
        processItems oid ps [ci]
          = .ok (updateStock ps ci.product_id ci.quantity)
              [⟨oid, ci.product_id, ci.quantity, p.price⟩] ∧
        findProduct (updateStock ps ci.product_id ci.quantity) ci.product_id
          = some { p with stock_count := p.stock_count - (ci.quantity : Int) })) := by
  constructor
  · exact (runOps_stockOK ops db ⟨hnd, hpos⟩).2
  · intro oid ps ci p hfind
    constructor
    · intro hlt
      simp [processItems, hfind, hlt]
    · intro hge
      have hnlt : ¬ p.stock_count < (ci.quantity : Int) := not_lt.mpr hge
      constructor
      · simp [processItems, hfind, hnlt]
      · rw [findProduct_updateStock, hfind]
        have hpid : p.id = ci.product_id := by
          have h2 := List.find?_some hfind
          simpa using h2
        simp [hpid]

/-- Witness for C7: the concrete state dbW satisfies both hypotheses by
evaluation, and after a concrete direct checkout every stock is still
non-negative. -/
theorem c7_witness :
    ((dbW.products.map Product.id).Nodup ∧ ∀ p ∈ dbW.products, 0 ≤ p.stock_count) ∧
    (∀ p ∈ (runOps dbW [Op.direct 1 1 "cash"]).products, 0 ≤ p.stock_count) :=
  ⟨⟨by decide, by decide⟩,
    (c7_stock_never_negative dbW [Op.direct 1 1 "cash"] (by decide) (by decide)).1⟩
